import Mathlib

/-!
Shallow embedding of `src/zegami_sdk/trained_model/mrcnn_trained_model.py`
(`class MrcnnTrainedModel(TrainedModel)`), together with theorems checking the
natural-language specification of that file.

Modelling conventions:
* the file system is a list of existing file paths (strings, `/`-separated),
  kept in directory-enumeration order — the order in which `glob` would
  produce them (CPython's `glob` documents its result order as arbitrary);
* the external deep-learning library (`MaskRCNN`, `load_weights`, `compile`)
  and the dynamic-import machinery (`exec_module`, `InferenceConfig()`) are
  oracles supplied as a structure of functions returning `Except PyErr _`;
  each run records the list of external calls it made, in order;
* Python `None` is `Option.none`; a Python function body that falls off the
  end yields `Except.ok Option.none`;
* `sys.modules` is a global association list carried through the run.
-/

namespace MrcnnModel

/-- A small universe of Python values, enough for `kwargs` entries. -/
inductive PyVal where
  | none
  | bool (b : Bool)
  | int (n : Int)
  | str (s : String)
deriving DecidableEq, Repr

/-- Python truthiness (`if use_mrcnn_exclusion:`) for the values of `PyVal`. -/
def truthy : PyVal → Bool
  | PyVal.none => false
  | PyVal.bool b => b
  | PyVal.int n => n != 0
  | PyVal.str s => s != ""

/-- The instantiated `InferenceConfig()` object: the two attributes the code
reads (`LEARNING_RATE`, `LEARNING_MOMENTUM`), as opaque numeric values. -/
structure Config where
  LEARNING_RATE : Int
  LEARNING_MOMENTUM : Int
deriving DecidableEq, Repr

/-- An opaque handle to a constructed `MaskRCNN` model object. -/
abbrev ModelH := Nat

/-- Python exceptions the embedded code can produce or propagate. -/
inductive PyErr where
  /-- Python `raise FileNotFoundError(msg)`. -/
  | fileNotFoundError (msg : String)
  /-- attribute access on `None` (`NoneType` has no such attribute) -/
  | attributeError (msg : String)
  /-- an exception raised inside the external library or the imported module -/
  | libError (code : Nat)
deriving DecidableEq, Repr

/-- One call into the external library / dynamic-import machinery. -/
inductive ExtCall where
  /-- Call `spec.loader.exec_module(inference_config)` on the file at `path`. -/
  | execModule (path : String)
  /-- instantiating class `cls` from the imported module with arguments `args` -/
  | instantiate (cls : String) (args : List PyVal)
  /-- Construction `MaskRCNN(mode, config, dir)`. -/
  | maskRCNN (mode : String) (config : Option Config) (dir : String)
  /-- Call `model.load_weights(path, by_name=byName, exclusion=exclusion)`. -/
  | loadWeights (path : String) (byName : Bool) (exclusion : List String)
  /-- Call `model.compile(lr, lm)`. -/
  | compile (lr : Int) (lm : Int)
deriving DecidableEq, Repr

/-- Oracles for every external operation the code performs.  Each returns
`Except PyErr _`: `Except.error e` models the operation raising exception
`e`, which the embedded code may or may not propagate. -/
structure ExtApi where
  execModule : String → Except PyErr Unit
  inferenceConfigNew : Except PyErr Config
  maskRCNN : String → Option Config → String → Except PyErr ModelH
  loadWeights : ModelH → String → Bool → List String → Except PyErr Unit
  compile : ModelH → Int → Int → Except PyErr Unit

/-- Decidable equality of `Except` results, for evaluating outcomes. -/
instance exceptDecEq {ε α : Type} [DecidableEq ε] [DecidableEq α] :
    DecidableEq (Except ε α)
  | Except.error e1, Except.error e2 =>
      if h : e1 = e2 then Decidable.isTrue (by rw [h])
      else Decidable.isFalse (by intro hh; cases hh; exact h rfl)
  | Except.error _, Except.ok _ => Decidable.isFalse (by intro hh; cases hh)
  | Except.ok _, Except.error _ => Decidable.isFalse (by intro hh; cases hh)
  | Except.ok a1, Except.ok a2 =>
      if h : a1 = a2 then Decidable.isTrue (by rw [h])
      else Decidable.isFalse (by intro hh; cases hh; exact h rfl)

/-- The file system: the list of existing files (full `/`-separated paths),
in directory-enumeration order.  Directories exist implicitly as proper
path segments of the listed files. -/
structure FileSystem where
  files : List String
deriving DecidableEq, Repr

/-- Is the first character list a prefix of the second? -/
def charPrefix : List Char → List Char → Bool
  | [], _ => true
  | _ :: _, [] => false
  | a :: as, b :: bs => a == b && charPrefix as bs

/-- Embedding of `os.path.exists p`: `p` is a listed file, or a directory, i.e. a proper
path-segment position of some listed file. -/
def FileSystem.pathExists (fs : FileSystem) (p : String) : Bool :=
  fs.files.any (fun f => f == p || charPrefix (p ++ "/").data f.data)

/-- Embedding of `os.path.join a b` for the shapes used here (no absolute `b`): insert a
`/` unless `a` is empty or already ends in `/`. -/
def osPathJoin (a b : String) : String :=
  if a = "" then b
  else if a.data.getLastD ' ' == '/' then a ++ b
  else a ++ "/" ++ b

/-- Matching, in `fnmatch` style, of one pattern component against one path
segment, where the only wildcard appearing in the patterns this program
builds is `*` (a `**` inside a component behaves like `*`): `*` matches any
(possibly empty) run of characters of the segment.  The `fuel` argument only
makes the recursion structural (each step shortens the pattern or the
segment, so `pat.length + seg.length + 1` fuel, as supplied by `starMatch`,
always reaches an answer). -/
def starMatchF : Nat → List Char → List Char → Bool
  | 0, _, _ => false
  | _ + 1, [], ns => ns.isEmpty
  | f + 1, '*' :: ps, ns =>
      starMatchF f ps ns ||
        (match ns with
         | [] => false
         | _ :: ns2 => starMatchF f ('*' :: ps) ns2)
  | _ + 1, _ :: _, [] => false
  | f + 1, p :: ps, n :: ns => p == n && starMatchF f ps ns

/-- Wrapper running `starMatchF` with always-sufficient fuel. -/
def starMatch (pat seg : List Char) : Bool :=
  starMatchF (pat.length + seg.length + 1) pat seg

/-- Does a name / pattern component start with `.` (a hidden entry)? -/
def isHidden : List Char → Bool
  | '.' :: _ => true
  | _ => false

/-- Matching of one glob pattern component against one directory-entry name:
`starMatch`, plus CPython glob's hidden-file rule (a wildcard pattern not
itself starting with `.` never matches an entry starting with `.`). -/
def compMatch (pat name : List Char) : Bool :=
  if isHidden name && !isHidden pat then false
  else starMatch pat name

/-- Split a path (or pattern) on `/` into its components. -/
def splitSegs : List Char → List (List Char)
  | [] => [[]]
  | '/' :: rest => [] :: splitSegs rest
  | c :: rest =>
      match splitSegs rest with
      | [] => [[c]]
      | s :: ss => (c :: s) :: ss

/-- CPython `glob(pattern, recursive=True)` matching, component list against
segment list: a component that is exactly `**` matches zero or more
(non-hidden) path segments; any other component matches exactly one segment
via `compMatch`.  Fuel as in `starMatchF` (each step shortens the component
list or the segment list). -/
def globSegsF : Nat → List (List Char) → List (List Char) → Bool
  | 0, _, _ => false
  | _ + 1, [], segs => segs.isEmpty
  | f + 1, p :: ps, segs =>
      if p = ['*', '*'] then
        globSegsF f ps segs ||
          (match segs with
           | [] => false
           | s :: rest => !isHidden s && globSegsF f (p :: ps) rest)
      else
        match segs with
        | [] => false
        | s :: rest => compMatch p s && globSegsF f ps rest

/-- Does the full path `path` match the glob `pattern` (recursive mode)? -/
def globMatches (pattern path : String) : Bool :=
  let ps := splitSegs pattern.data
  let segs := splitSegs path.data
  globSegsF (ps.length + segs.length + 1) ps segs

/-- Embedding of `glob(pattern, recursive=True)` over the modelled file system: the
matching files, in the file system's enumeration order. -/
def globRecursive (fs : FileSystem) (pattern : String) : List String :=
  fs.files.filter (fun f => globMatches pattern f)

/-- Pattern `'\x7b\x7d**/*.h5'.format(self.save_path)` — the weights search pattern
built by `load_model` (note: the save path is concatenated with `**/*.h5`
with no separator in between). -/
def weightsPattern (save_path : String) : String := save_path ++ "**/*.h5"

/-- Embedding of `candidates = [str(g) for g in glob(regex, recursive=True)]`. -/
def weightsCandidates (fs : FileSystem) (save_path : String) : List String :=
  globRecursive fs (weightsPattern save_path)

example : weightsCandidates ⟨["models/w.h5"]⟩ "models" = ["models/w.h5"] := by decide

example : weightsCandidates ⟨["models/sub/deep.h5"]⟩ "models" = [] := by decide

example : weightsCandidates ⟨["models-old/w.h5"]⟩ "models" = ["models-old/w.h5"] := by decide

example : weightsCandidates ⟨["models/sub/deep.h5"]⟩ "models/" = ["models/sub/deep.h5"] := by decide

example : weightsCandidates ⟨["models/w.h5"]⟩ "models/" = ["models/w.h5"] := by decide

/-- Strict lexicographic order on character lists by code point. -/
def charListLt : List Char → List Char → Bool
  | _, [] => false
  | [], _ :: _ => true
  | a :: as, b :: bs =>
      Nat.blt a.toNat b.toNat || (a == b && charListLt as bs)

/-- Python's `<` on strings: lexicographic comparison by code point. -/
def strLexLt (a b : String) : Bool := charListLt a.data b.data

/-- Selection of `wfp`: the weights file `load_model` picks from the glob candidates
(`candidates[-1]` when more than one, `candidates[0]` when exactly one). -/
def selectWeights (candidates : List String) : String :=
  if candidates.length > 1 then candidates.getLastD ""
  else candidates.headD ""

/-- The fixed exclusion layer list of `load_model`. -/
def mrcnnExclusionList : List String :=
  ["mrcnn_class_logits", "mrcnn_bbox_fc", "mrcnn_bbox", "mrcnn_mask", "rpn_model"]

/-- List `mrcnn_exclusion` as computed by `load_model` from the stored `kwargs`
(`self.kwargs.get('use_mrcnn_exclusion', False)`, then Python truthiness). -/
def exclusionOf (kwargs : String → Option PyVal) : List String :=
  if truthy ((kwargs "use_mrcnn_exclusion").getD (PyVal.bool false)) then
    mrcnnExclusionList
  else []

/-- The instance attributes of a `MrcnnTrainedModel` object.  Python `None`
and a not-yet-assigned attribute are both modelled as `Option.none` (within
this program `self.config` only ever holds an `InferenceConfig` instance or
`None`, and `self.model` a model handle or `None`). -/
structure MrcnnState where
  save_path : String
  kwargs : String → Option PyVal
  config : Option Config
  model : Option ModelH

/-- Interpreter-global state: `sys.modules`, an association of module names
to the path of the file the module was loaded from. -/
structure Interp where
  sysModules : List (String × String)
deriving DecidableEq, Repr

/-- Update `sys.modules[k] = v`: set key `k` to `v` in the association list. -/
def setModule (ms : List (String × String)) (k v : String) :
    List (String × String) :=
  (k, v) :: ms.filter (fun kv => kv.1 ≠ k)

/-- The observable outcome of running one of the embedded methods: its
return value or the exception it raised, the instance state and interpreter
state after the call, and the external calls it made, in order. -/
structure Outcome (α : Type) where
  ret : Except PyErr α
  st : MrcnnState
  it : Interp
  calls : List ExtCall

/-- Modelled from the spec: `TrainedModel.__init__` (class `TrainedModel`
from `zegami_sdk.trained_model`, whose source is not under `src/`).  Per the
spec and the subclass comment (`# Check basic requirements and save_path
existence`) it checks that `save_path` exists, failing as a file-not-found
condition otherwise, and stores `save_path` and the keyword arguments on the
instance; it sets no other attribute. -/
def TrainedModel_init (fs : FileSystem) (save_path : String)
    (kwargs : String → Option PyVal) : Except PyErr MrcnnState :=
  if fs.pathExists save_path then
    Except.ok { save_path := save_path, kwargs := kwargs,
                config := Option.none, model := Option.none }
  else
    Except.error (PyErr.fileNotFoundError
      ("save_path does not exist: " ++ save_path))

/-- Path `fp = os.path.join(self.save_path, 'inference_config.py')`. -/
def cfgPath (save_path : String) : String :=
  osPathJoin save_path "inference_config.py"

/-- Embedding of `MrcnnTrainedModel.load_config`.  Mirrors the source line by line:
build `fp = os.path.join(self.save_path, 'inference_config.py')`; raise
`FileNotFoundError` if it does not exist; create the module and register it
under `sys.modules['inference_config']`; execute the module
(`spec.loader.exec_module`); instantiate `inference_config.InferenceConfig()`
into `self.config`; print a readout; fall off the end (return `None`). -/
def load_config (ext : ExtApi) (fs : FileSystem) (st : MrcnnState)
    (it : Interp) : Outcome (Option Config) :=
  let fp := cfgPath st.save_path
  if fs.pathExists fp = false then
    { ret := Except.error (PyErr.fileNotFoundError
        ("Expected to find configuration file at \"" ++ fp ++ "\"")),
      st := st, it := it, calls := [] }
  else
    let it2 : Interp := { sysModules := setModule it.sysModules "inference_config" fp }
    match ext.execModule fp with
    | Except.error e =>
        { ret := Except.error e, st := st, it := it2,
          calls := [ExtCall.execModule fp] }
    | Except.ok _ =>
        match ext.inferenceConfigNew with
        | Except.error e =>
            { ret := Except.error e, st := st, it := it2,
              calls := [ExtCall.execModule fp,
                        ExtCall.instantiate "InferenceConfig" []] }
        | Except.ok cfg =>
            { ret := Except.ok Option.none,
              st := { st with config := some cfg }, it := it2,
              calls := [ExtCall.execModule fp,
                        ExtCall.instantiate "InferenceConfig" []] }

/-- Embedding of `MrcnnTrainedModel.load_model`.  Mirrors the source: glob for weight
candidates with `'\x7b\x7d**/*.h5'.format(self.save_path)`; raise
`FileNotFoundError` when there are none; pick `candidates[-1]` (resp.
`candidates[0]`); compute the exclusion list from
`self.kwargs.get('use_mrcnn_exclusion', False)`; call
`MaskRCNN('inference', self.config, '.')`, then
`model.load_weights(wfp, by_name=True, exclusion=mrcnn_exclusion)`, then
read `self.config.LEARNING_RATE` / `.LEARNING_MOMENTUM` (an
`AttributeError` when `self.config` is `None`), then `model.compile(lr, lm)`;
assign `self.model = model`; fall off the end (return `None`). -/
def load_model (ext : ExtApi) (fs : FileSystem) (st : MrcnnState)
    (it : Interp) : Outcome (Option ModelH) :=
  let candidates := weightsCandidates fs st.save_path
  if candidates.length = 0 then
    { ret := Except.error (PyErr.fileNotFoundError
        ("No weights files found in \"" ++ st.save_path ++ "\"")),
      st := st, it := it, calls := [] }
  else
    let wfp := selectWeights candidates
    let mrcnn_exclusion := exclusionOf st.kwargs
    match ext.maskRCNN "inference" st.config "." with
    | Except.error e =>
        { ret := Except.error e, st := st, it := it,
          calls := [ExtCall.maskRCNN "inference" st.config "."] }
    | Except.ok model =>
        match ext.loadWeights model wfp true mrcnn_exclusion with
        | Except.error e =>
            { ret := Except.error e, st := st, it := it,
              calls := [ExtCall.maskRCNN "inference" st.config ".",
                        ExtCall.loadWeights wfp true mrcnn_exclusion] }
        | Except.ok _ =>
            match st.config with
            | Option.none =>
                { ret := Except.error (PyErr.attributeError
                    "NoneType object has no attribute LEARNING_RATE"),
                  st := st, it := it,
                  calls := [ExtCall.maskRCNN "inference" st.config ".",
                            ExtCall.loadWeights wfp true mrcnn_exclusion] }
            | some cfg =>
                match ext.compile model cfg.LEARNING_RATE cfg.LEARNING_MOMENTUM with
                | Except.error e =>
                    { ret := Except.error e, st := st, it := it,
                      calls := [ExtCall.maskRCNN "inference" st.config ".",
                                ExtCall.loadWeights wfp true mrcnn_exclusion,
                                ExtCall.compile cfg.LEARNING_RATE cfg.LEARNING_MOMENTUM] }
                | Except.ok _ =>
                    { ret := Except.ok Option.none,
                      st := { st with model := some model }, it := it,
                      calls := [ExtCall.maskRCNN "inference" st.config ".",
                                ExtCall.loadWeights wfp true mrcnn_exclusion,
                                ExtCall.compile cfg.LEARNING_RATE cfg.LEARNING_MOMENTUM] }

/-- Embedding of `MrcnnTrainedModel.__init__`: `super().__init__(save_path, **kwargs)`;
`self.config = self.load_config()`; `self.model = self.load_model()`.  Note
the two assignments store the methods' return values over the attributes
the methods themselves set. -/
def mrcnnInit (ext : ExtApi) (fs : FileSystem) (save_path : String)
    (kwargs : String → Option PyVal) (it : Interp) : Outcome Unit :=
  match TrainedModel_init fs save_path kwargs with
  | Except.error e =>
      { ret := Except.error e,
        st := { save_path := save_path, kwargs := kwargs,
                config := Option.none, model := Option.none },
        it := it, calls := [] }
  | Except.ok st0 =>
      let r1 := load_config ext fs st0 it
      match r1.ret with
      | Except.error e =>
          { ret := Except.error e, st := r1.st, it := r1.it, calls := r1.calls }
      | Except.ok v1 =>
          let st1 := { r1.st with config := v1 }
          let r2 := load_model ext fs st1 r1.it
          match r2.ret with
          | Except.error e =>
              { ret := Except.error e, st := r2.st, it := r2.it,
                calls := r1.calls ++ r2.calls }
          | Except.ok v2 =>
              { ret := Except.ok (), st := { r2.st with model := v2 },
                it := r2.it, calls := r1.calls ++ r2.calls }

/-! Concrete fixtures used by witnesses and counterexamples. -/

/-- Oracles on which every external operation succeeds. -/
def extOk : ExtApi where
  execModule := fun _ => Except.ok ()
  inferenceConfigNew := Except.ok { LEARNING_RATE := 3, LEARNING_MOMENTUM := 9 }
  maskRCNN := fun _ _ _ => Except.ok 7
  loadWeights := fun _ _ _ _ => Except.ok ()
  compile := fun _ _ _ => Except.ok ()

/-- A directory holding the configuration file and one weights file. -/
def fsOk : FileSystem := ⟨["models/inference_config.py", "models/w.h5"]⟩

/-- No keyword arguments. -/
def noKwargs : String → Option PyVal := fun _ => Option.none

/-- An empty `sys.modules`. -/
def itEmpty : Interp := ⟨[]⟩

/-- An instance whose `config` attribute holds an instantiated
`InferenceConfig` (as after a direct `load_config()` call). -/
def stWithConfig : MrcnnState :=
  { save_path := "models", kwargs := noKwargs,
    config := some { LEARNING_RATE := 3, LEARNING_MOMENTUM := 9 },
    model := Option.none }

/-- A freshly `TrainedModel`-initialised instance (no config yet). -/
def stNoConfig : MrcnnState :=
  { save_path := "models", kwargs := noKwargs,
    config := Option.none, model := Option.none }

example : (load_config extOk fsOk stNoConfig itEmpty).ret =
    Except.ok Option.none := by decide

example : (load_model extOk fsOk stWithConfig itEmpty).ret =
    Except.ok Option.none := by decide

example : (load_model extOk fsOk stNoConfig itEmpty).ret =
    Except.error (PyErr.attributeError
      "NoneType object has no attribute LEARNING_RATE") := by decide

example : (mrcnnInit extOk fsOk "models" noKwargs itEmpty).ret =
    Except.error (PyErr.attributeError
      "NoneType object has no attribute LEARNING_RATE") := by decide

/-! Characterization lemmas: a complete case analysis of each method's
possible outcomes, from which the claim theorems follow. -/

/-- Complete case analysis of `load_config`: the existence-check failure, a
propagated `exec_module` exception, a propagated `InferenceConfig()`
exception, or success. -/
theorem load_config_cases (ext : ExtApi) (fs : FileSystem) (st : MrcnnState)
    (it : Interp) :
    (fs.pathExists (cfgPath st.save_path) = false ∧
      (load_config ext fs st it).ret = Except.error (PyErr.fileNotFoundError
        ("Expected to find configuration file at \"" ++ cfgPath st.save_path ++ "\"")) ∧
      (load_config ext fs st it).st = st ∧
      (load_config ext fs st it).it = it ∧
      (load_config ext fs st it).calls = []) ∨
    (fs.pathExists (cfgPath st.save_path) = true ∧
      (∃ e, ext.execModule (cfgPath st.save_path) = Except.error e ∧
        (load_config ext fs st it).ret = Except.error e) ∧
      (load_config ext fs st it).st = st ∧
      (load_config ext fs st it).it =
        ⟨setModule it.sysModules "inference_config" (cfgPath st.save_path)⟩ ∧
      (load_config ext fs st it).calls =
        [ExtCall.execModule (cfgPath st.save_path)]) ∨
    (fs.pathExists (cfgPath st.save_path) = true ∧
      ext.execModule (cfgPath st.save_path) = Except.ok () ∧
      (∃ e, ext.inferenceConfigNew = Except.error e ∧
        (load_config ext fs st it).ret = Except.error e) ∧
      (load_config ext fs st it).st = st ∧
      (load_config ext fs st it).it =
        ⟨setModule it.sysModules "inference_config" (cfgPath st.save_path)⟩ ∧
      (load_config ext fs st it).calls =
        [ExtCall.execModule (cfgPath st.save_path),
         ExtCall.instantiate "InferenceConfig" []]) ∨
    (fs.pathExists (cfgPath st.save_path) = true ∧
      ext.execModule (cfgPath st.save_path) = Except.ok () ∧
      (∃ cfg, ext.inferenceConfigNew = Except.ok cfg ∧
        (load_config ext fs st it).st = { st with config := some cfg }) ∧
      (load_config ext fs st it).ret = Except.ok Option.none ∧
      (load_config ext fs st it).it =
        ⟨setModule it.sysModules "inference_config" (cfgPath st.save_path)⟩ ∧
      (load_config ext fs st it).calls =
        [ExtCall.execModule (cfgPath st.save_path),
         ExtCall.instantiate "InferenceConfig" []]) := by
  cases hfp : fs.pathExists (cfgPath st.save_path) with
  | false =>
      left
      refine ⟨rfl, ?_⟩
      simp [load_config, hfp]
  | true =>
      right
      cases hE : ext.execModule (cfgPath st.save_path) with
      | error e =>
          left
          refine ⟨rfl, ⟨e, rfl, ?_⟩, ?_, ?_, ?_⟩ <;> simp [load_config, hfp, hE]
      | ok u =>
          right
          cases u
          cases hI : ext.inferenceConfigNew with
          | error e =>
              left
              refine ⟨rfl, rfl, ⟨e, rfl, ?_⟩, ?_, ?_, ?_⟩ <;>
                simp [load_config, hfp, hE, hI]
          | ok cfg =>
              right
              refine ⟨rfl, rfl, ⟨cfg, rfl, ?_⟩, ?_, ?_, ?_⟩ <;>
                simp [load_config, hfp, hE, hI]

/-- Outcome of `load_config` when the configuration file is missing. -/
theorem load_config_eq_missing (ext : ExtApi) (fs : FileSystem)
    (st : MrcnnState) (it : Interp)
    (h : fs.pathExists (cfgPath st.save_path) = false) :
    load_config ext fs st it =
      { ret := Except.error (PyErr.fileNotFoundError
          ("Expected to find configuration file at \"" ++ cfgPath st.save_path ++ "\"")),
        st := st, it := it, calls := [] } := by
  unfold load_config
  simp [h]

/-- Outcome of `load_config` when `exec_module` raises. -/
theorem load_config_eq_execErr (ext : ExtApi) (fs : FileSystem)
    (st : MrcnnState) (it : Interp) (e : PyErr)
    (h : fs.pathExists (cfgPath st.save_path) = true)
    (hE : ext.execModule (cfgPath st.save_path) = Except.error e) :
    load_config ext fs st it =
      { ret := Except.error e, st := st,
        it := ⟨setModule it.sysModules "inference_config" (cfgPath st.save_path)⟩,
        calls := [ExtCall.execModule (cfgPath st.save_path)] } := by
  unfold load_config
  simp [h, hE]

/-- Outcome of `load_config` when `InferenceConfig()` raises. -/
theorem load_config_eq_newErr (ext : ExtApi) (fs : FileSystem)
    (st : MrcnnState) (it : Interp) (e : PyErr)
    (h : fs.pathExists (cfgPath st.save_path) = true)
    (hE : ext.execModule (cfgPath st.save_path) = Except.ok ())
    (hI : ext.inferenceConfigNew = Except.error e) :
    load_config ext fs st it =
      { ret := Except.error e, st := st,
        it := ⟨setModule it.sysModules "inference_config" (cfgPath st.save_path)⟩,
        calls := [ExtCall.execModule (cfgPath st.save_path),
                  ExtCall.instantiate "InferenceConfig" []] } := by
  unfold load_config
  simp [h, hE, hI]

/-- Outcome of `load_config` on success: the module is registered and executed,
`InferenceConfig()` is stored into `self.config`, and the method returns
`None`. -/
theorem load_config_eq_ok (ext : ExtApi) (fs : FileSystem)
    (st : MrcnnState) (it : Interp) (cfg : Config)
    (h : fs.pathExists (cfgPath st.save_path) = true)
    (hE : ext.execModule (cfgPath st.save_path) = Except.ok ())
    (hI : ext.inferenceConfigNew = Except.ok cfg) :
    load_config ext fs st it =
      { ret := Except.ok Option.none, st := { st with config := some cfg },
        it := ⟨setModule it.sysModules "inference_config" (cfgPath st.save_path)⟩,
        calls := [ExtCall.execModule (cfgPath st.save_path),
                  ExtCall.instantiate "InferenceConfig" []] } := by
  unfold load_config
  simp [h, hE, hI]

/-- Outcome of `load_model` when the weights glob finds no candidate. -/
theorem load_model_eq_nil (ext : ExtApi) (fs : FileSystem)
    (st : MrcnnState) (it : Interp)
    (h : weightsCandidates fs st.save_path = []) :
    load_model ext fs st it =
      { ret := Except.error (PyErr.fileNotFoundError
          ("No weights files found in \"" ++ st.save_path ++ "\"")),
        st := st, it := it, calls := [] } := by
  unfold load_model
  simp [h]

/-- Outcome of `load_model` when `MaskRCNN(...)` raises. -/
theorem load_model_eq_mrcnnErr (ext : ExtApi) (fs : FileSystem)
    (st : MrcnnState) (it : Interp) (e : PyErr)
    (h : weightsCandidates fs st.save_path ≠ [])
    (hM : ext.maskRCNN "inference" st.config "." = Except.error e) :
    load_model ext fs st it =
      { ret := Except.error e, st := st, it := it,
        calls := [ExtCall.maskRCNN "inference" st.config "."] } := by
  unfold load_model
  rw [if_neg (by simpa using h)]
  simp only [hM]

/-- Outcome of `load_model` when `model.load_weights(...)` raises. -/
theorem load_model_eq_weightsErr (ext : ExtApi) (fs : FileSystem)
    (st : MrcnnState) (it : Interp) (m : ModelH) (e : PyErr)
    (h : weightsCandidates fs st.save_path ≠ [])
    (hM : ext.maskRCNN "inference" st.config "." = Except.ok m)
    (hW : ext.loadWeights m (selectWeights (weightsCandidates fs st.save_path))
        true (exclusionOf st.kwargs) = Except.error e) :
    load_model ext fs st it =
      { ret := Except.error e, st := st, it := it,
        calls := [ExtCall.maskRCNN "inference" st.config ".",
                  ExtCall.loadWeights
                    (selectWeights (weightsCandidates fs st.save_path)) true
                    (exclusionOf st.kwargs)] } := by
  unfold load_model
  rw [if_neg (by simpa using h)]
  simp only [hM, hW]

/-- Outcome of `load_model` when the external calls succeed but `self.config`
is `None`: the read of `self.config.LEARNING_RATE` fails. -/
theorem load_model_eq_noneCfg (ext : ExtApi) (fs : FileSystem)
    (st : MrcnnState) (it : Interp) (m : ModelH)
    (h : weightsCandidates fs st.save_path ≠ [])
    (hc : st.config = Option.none)
    (hM : ext.maskRCNN "inference" st.config "." = Except.ok m)
    (hW : ext.loadWeights m (selectWeights (weightsCandidates fs st.save_path))
        true (exclusionOf st.kwargs) = Except.ok ()) :
    load_model ext fs st it =
      { ret := Except.error (PyErr.attributeError
          "NoneType object has no attribute LEARNING_RATE"),
        st := st, it := it,
        calls := [ExtCall.maskRCNN "inference" st.config ".",
                  ExtCall.loadWeights
                    (selectWeights (weightsCandidates fs st.save_path)) true
                    (exclusionOf st.kwargs)] } := by
  unfold load_model
  rw [if_neg (by simpa using h)]
  rw [hc] at hM ⊢
  simp only [hM, hW]

/-- Outcome of `load_model` when `model.compile(...)` raises. -/
theorem load_model_eq_compileErr (ext : ExtApi) (fs : FileSystem)
    (st : MrcnnState) (it : Interp) (m : ModelH) (cfg : Config) (e : PyErr)
    (h : weightsCandidates fs st.save_path ≠ [])
    (hc : st.config = some cfg)
    (hM : ext.maskRCNN "inference" st.config "." = Except.ok m)
    (hW : ext.loadWeights m (selectWeights (weightsCandidates fs st.save_path))
        true (exclusionOf st.kwargs) = Except.ok ())
    (hC : ext.compile m cfg.LEARNING_RATE cfg.LEARNING_MOMENTUM =
        Except.error e) :
    load_model ext fs st it =
      { ret := Except.error e, st := st, it := it,
        calls := [ExtCall.maskRCNN "inference" st.config ".",
                  ExtCall.loadWeights
                    (selectWeights (weightsCandidates fs st.save_path)) true
                    (exclusionOf st.kwargs),
                  ExtCall.compile cfg.LEARNING_RATE cfg.LEARNING_MOMENTUM] } := by
  unfold load_model
  rw [if_neg (by simpa using h)]
  rw [hc] at hM ⊢
  simp only [hM, hW, hC]

/-- Outcome of `load_model` on success: three external library calls in order,
`self.model` assigned, return value `None`. -/
theorem load_model_eq_ok (ext : ExtApi) (fs : FileSystem)
    (st : MrcnnState) (it : Interp) (m : ModelH) (cfg : Config)
    (h : weightsCandidates fs st.save_path ≠ [])
    (hc : st.config = some cfg)
    (hM : ext.maskRCNN "inference" st.config "." = Except.ok m)
    (hW : ext.loadWeights m (selectWeights (weightsCandidates fs st.save_path))
        true (exclusionOf st.kwargs) = Except.ok ())
    (hC : ext.compile m cfg.LEARNING_RATE cfg.LEARNING_MOMENTUM =
        Except.ok ()) :
    load_model ext fs st it =
      { ret := Except.ok Option.none, st := { st with model := some m },
        it := it,
        calls := [ExtCall.maskRCNN "inference" st.config ".",
                  ExtCall.loadWeights
                    (selectWeights (weightsCandidates fs st.save_path)) true
                    (exclusionOf st.kwargs),
                  ExtCall.compile cfg.LEARNING_RATE cfg.LEARNING_MOMENTUM] } := by
  unfold load_model
  rw [if_neg (by simpa using h)]
  rw [hc] at hM ⊢
  simp only [hM, hW, hC]

/-- The last element (with default) of a nonempty list is an element. -/
theorem getLastD_mem_cons {α : Type} (rest : List α) (a d : α) :
    (a :: rest).getLastD d ∈ a :: rest := by
  induction rest generalizing a with
  | nil => simp
  | cons b bs ih =>
      rw [List.getLastD_cons]
      exact List.mem_cons_of_mem a (ih b)

/-- The weights file `load_model` picks is one of the glob candidates. -/
theorem selectWeights_mem (cs : List String) (h : cs ≠ []) :
    selectWeights cs ∈ cs := by
  cases cs with
  | nil => exact absurd rfl h
  | cons a rest =>
      unfold selectWeights
      by_cases h1 : (a :: rest).length > 1
      · rw [if_pos h1]
        exact getLastD_mem_cons rest a ""
      · rw [if_neg h1]
        simp

/-- On a nonempty candidate list both branches of the selection pick the
last element (`candidates[-1]`; for a singleton, `candidates[0]` is also the
last element). -/
theorem selectWeights_eq_getLastD (cs : List String) (h : cs ≠ []) :
    selectWeights cs = cs.getLastD "" := by
  cases cs with
  | nil => exact absurd rfl h
  | cons a rest =>
      unfold selectWeights
      by_cases h1 : (a :: rest).length > 1
      · rw [if_pos h1]
      · rw [if_neg h1]
        cases rest with
        | nil => simp
        | cons b bs =>
            exact absurd (by simp) h1

/-- Shape facts common to every outcome of `load_config`: what can change
(the `inference_config` entry of `sys.modules` and `self.config`), what
cannot (`save_path`, `kwargs`, `self.model`), what the call trace may
contain, that a completed call returns `None`, and that a raising call
leaves the instance unchanged. -/
theorem load_config_shape (ext : ExtApi) (fs : FileSystem) (st : MrcnnState)
    (it : Interp) :
    ((load_config ext fs st it).it = it ∨
      (load_config ext fs st it).it =
        ⟨setModule it.sysModules "inference_config" (cfgPath st.save_path)⟩) ∧
    (load_config ext fs st it).st.save_path = st.save_path ∧
    (load_config ext fs st it).st.kwargs = st.kwargs ∧
    (load_config ext fs st it).st.model = st.model ∧
    (∀ c ∈ (load_config ext fs st it).calls,
      c = ExtCall.execModule (cfgPath st.save_path) ∨
      c = ExtCall.instantiate "InferenceConfig" []) ∧
    (∀ v, (load_config ext fs st it).ret = Except.ok v → v = Option.none) ∧
    (∀ v, (load_config ext fs st it).ret = Except.ok v →
      ∃ cfg, (load_config ext fs st it).st.config = some cfg ∧
        (load_config ext fs st it).st = { st with config := some cfg } ∧
        (load_config ext fs st it).calls =
          [ExtCall.execModule (cfgPath st.save_path),
           ExtCall.instantiate "InferenceConfig" []]) ∧
    (∀ e, (load_config ext fs st it).ret = Except.error e →
      (load_config ext fs st it).st = st) := by
  by_cases hfp : fs.pathExists (cfgPath st.save_path) = false
  · rw [load_config_eq_missing ext fs st it hfp]
    refine ⟨Or.inl rfl, rfl, rfl, rfl, ?_, ?_, ?_, ?_⟩ <;> simp
  · have hfp2 : fs.pathExists (cfgPath st.save_path) = true := by
      cases hb : fs.pathExists (cfgPath st.save_path)
      · exact absurd hb hfp
      · rfl
    cases hE : ext.execModule (cfgPath st.save_path) with
    | error e =>
        rw [load_config_eq_execErr ext fs st it e hfp2 hE]
        refine ⟨Or.inr rfl, rfl, rfl, rfl, ?_, ?_, ?_, ?_⟩ <;> simp
    | ok u =>
        cases u
        cases hI : ext.inferenceConfigNew with
        | error e =>
            rw [load_config_eq_newErr ext fs st it e hfp2 hE hI]
            refine ⟨Or.inr rfl, rfl, rfl, rfl, ?_, ?_, ?_, ?_⟩ <;> simp
        | ok cfg =>
            rw [load_config_eq_ok ext fs st it cfg hfp2 hE hI]
            refine ⟨Or.inr rfl, rfl, rfl, rfl, ?_, ?_, ?_, ?_⟩ <;> simp

/-- Shape facts common to every outcome of `load_model`: the interpreter
state is untouched; `save_path`, `kwargs` and `self.config` are untouched;
every call in the trace is one of the three external library calls with the
arguments the code computes; a completed call returns `None`, has the
three-call trace, and stores the constructed model into `self.model`; a
raising call leaves the instance unchanged. -/
theorem load_model_shape (ext : ExtApi) (fs : FileSystem) (st : MrcnnState)
    (it : Interp) :
    (load_model ext fs st it).it = it ∧
    (load_model ext fs st it).st.save_path = st.save_path ∧
    (load_model ext fs st it).st.kwargs = st.kwargs ∧
    (load_model ext fs st it).st.config = st.config ∧
    (∀ c ∈ (load_model ext fs st it).calls,
      c = ExtCall.maskRCNN "inference" st.config "." ∨
      c = ExtCall.loadWeights (selectWeights (weightsCandidates fs st.save_path))
            true (exclusionOf st.kwargs) ∨
      (∃ cfg, st.config = some cfg ∧
        c = ExtCall.compile cfg.LEARNING_RATE cfg.LEARNING_MOMENTUM)) ∧
    (∀ v, (load_model ext fs st it).ret = Except.ok v →
      v = Option.none ∧
      (∃ cfg m, st.config = some cfg ∧
        (load_model ext fs st it).st = { st with model := some m } ∧
        (load_model ext fs st it).calls =
          [ExtCall.maskRCNN "inference" st.config ".",
           ExtCall.loadWeights (selectWeights (weightsCandidates fs st.save_path))
             true (exclusionOf st.kwargs),
           ExtCall.compile cfg.LEARNING_RATE cfg.LEARNING_MOMENTUM])) ∧
    (∀ e, (load_model ext fs st it).ret = Except.error e →
      (load_model ext fs st it).st = st) := by
  by_cases hnil : weightsCandidates fs st.save_path = []
  · rw [load_model_eq_nil ext fs st it hnil]
    refine ⟨rfl, rfl, rfl, rfl, ?_, ?_, ?_⟩ <;> simp
  · cases hM : ext.maskRCNN "inference" st.config "." with
    | error e =>
        rw [load_model_eq_mrcnnErr ext fs st it e hnil hM]
        refine ⟨rfl, rfl, rfl, rfl, ?_, ?_, ?_⟩ <;> simp
    | ok m =>
        cases hW : ext.loadWeights m
            (selectWeights (weightsCandidates fs st.save_path)) true
            (exclusionOf st.kwargs) with
        | error e =>
            rw [load_model_eq_weightsErr ext fs st it m e hnil hM hW]
            refine ⟨rfl, rfl, rfl, rfl, ?_, ?_, ?_⟩ <;> simp
        | ok u =>
            cases u
            cases hc : st.config with
            | none =>
                rw [load_model_eq_noneCfg ext fs st it m hnil hc
                  (by rw [hc] at hM; rw [hc]; exact hM) hW]
                refine ⟨rfl, rfl, rfl, hc, ?_, ?_, ?_⟩
                · simp [hc]
                · intro v hv
                  simp at hv
                · intro e he
                  rfl
            | some cfg =>
                cases hC : ext.compile m cfg.LEARNING_RATE cfg.LEARNING_MOMENTUM with
                | error e =>
                    rw [load_model_eq_compileErr ext fs st it m cfg e hnil hc
                      (by rw [hc] at hM; rw [hc]; exact hM) hW hC]
                    refine ⟨rfl, rfl, rfl, hc, ?_, ?_, ?_⟩
                    · simp [hc]
                    · intro v hv
                      simp at hv
                    · intro e2 he
                      rfl
                | ok w =>
                    cases w
                    rw [load_model_eq_ok ext fs st it m cfg hnil hc
                      (by rw [hc] at hM; rw [hc]; exact hM) hW hC]
                    refine ⟨rfl, rfl, rfl, hc, ?_, ?_, ?_⟩
                    · simp [hc]
                    · intro v hv
                      simp only [Except.ok.injEq] at hv
                      exact ⟨hv.symm, cfg, m, rfl, by simp [hc], by simp [hc]⟩
                    · intro e he
                      simp at he

/-- A successful `TrainedModel.__init__` produces exactly the base state. -/
theorem TrainedModel_init_ok (fs : FileSystem) (sp : String)
    (kw : String → Option PyVal) (st0 : MrcnnState)
    (h : TrainedModel_init fs sp kw = Except.ok st0) :
    st0 = { save_path := sp, kwargs := kw,
            config := Option.none, model := Option.none } := by
  unfold TrainedModel_init at h
  by_cases hex : fs.pathExists sp
  · rw [if_pos hex] at h
    exact (Except.ok.inj h).symm
  · rw [if_neg hex] at h
    cases h

/-- Outcome of `__init__` when the superclass initialiser raises. -/
theorem mrcnnInit_eq_superErr (ext : ExtApi) (fs : FileSystem) (sp : String)
    (kw : String → Option PyVal) (it : Interp) (e : PyErr)
    (h : TrainedModel_init fs sp kw = Except.error e) :
    mrcnnInit ext fs sp kw it =
      { ret := Except.error e,
        st := { save_path := sp, kwargs := kw,
                config := Option.none, model := Option.none },
        it := it, calls := [] } := by
  unfold mrcnnInit
  rw [h]

/-- Outcome of `__init__` when `load_config` raises. -/
theorem mrcnnInit_eq_cfgErr (ext : ExtApi) (fs : FileSystem) (sp : String)
    (kw : String → Option PyVal) (it : Interp) (st0 : MrcnnState) (e : PyErr)
    (h0 : TrainedModel_init fs sp kw = Except.ok st0)
    (h1 : (load_config ext fs st0 it).ret = Except.error e) :
    mrcnnInit ext fs sp kw it =
      { ret := Except.error e, st := (load_config ext fs st0 it).st,
        it := (load_config ext fs st0 it).it,
        calls := (load_config ext fs st0 it).calls } := by
  unfold mrcnnInit
  rw [h0]
  simp only [h1]

/-- Outcome of `__init__` when `load_config` completes and the subsequent
`load_model` (run on the instance whose `config` attribute has just been
overwritten with `load_config`'s return value) raises. -/
theorem mrcnnInit_eq_modelErr (ext : ExtApi) (fs : FileSystem) (sp : String)
    (kw : String → Option PyVal) (it : Interp) (st0 : MrcnnState)
    (v : Option Config) (e : PyErr)
    (h0 : TrainedModel_init fs sp kw = Except.ok st0)
    (h1 : (load_config ext fs st0 it).ret = Except.ok v)
    (h2 : (load_model ext fs { (load_config ext fs st0 it).st with config := v }
        (load_config ext fs st0 it).it).ret = Except.error e) :
    mrcnnInit ext fs sp kw it =
      { ret := Except.error e,
        st := (load_model ext fs { (load_config ext fs st0 it).st with config := v }
          (load_config ext fs st0 it).it).st,
        it := (load_model ext fs { (load_config ext fs st0 it).st with config := v }
          (load_config ext fs st0 it).it).it,
        calls := (load_config ext fs st0 it).calls ++
          (load_model ext fs { (load_config ext fs st0 it).st with config := v }
            (load_config ext fs st0 it).it).calls } := by
  unfold mrcnnInit
  rw [h0]
  simp only [h1, h2]

/-- Outcome of `__init__` when both loading calls complete. -/
theorem mrcnnInit_eq_ok (ext : ExtApi) (fs : FileSystem) (sp : String)
    (kw : String → Option PyVal) (it : Interp) (st0 : MrcnnState)
    (v : Option Config) (v2 : Option ModelH)
    (h0 : TrainedModel_init fs sp kw = Except.ok st0)
    (h1 : (load_config ext fs st0 it).ret = Except.ok v)
    (h2 : (load_model ext fs { (load_config ext fs st0 it).st with config := v }
        (load_config ext fs st0 it).it).ret = Except.ok v2) :
    mrcnnInit ext fs sp kw it =
      { ret := Except.ok (),
        st := { (load_model ext fs { (load_config ext fs st0 it).st with config := v }
          (load_config ext fs st0 it).it).st with model := v2 },
        it := (load_model ext fs { (load_config ext fs st0 it).st with config := v }
          (load_config ext fs st0 it).it).it,
        calls := (load_config ext fs st0 it).calls ++
          (load_model ext fs { (load_config ext fs st0 it).st with config := v }
            (load_config ext fs st0 it).it).calls } := by
  unfold mrcnnInit
  rw [h0]
  simp only [h1, h2]

/-!  Claim theorems. -/

/-- C1 (status: code_bug).  The spec claims the candidate weight files are
exactly the `*.h5` files found recursively under `save_path`.  The code
builds the glob pattern by string concatenation with no path separator
(`'\x7b\x7d**/*.h5'.format(self.save_path)`), so for `save_path = "models"`
the pattern is `models**/*.h5`, in which `**` is not a whole path component
and therefore not recursive: a weight file at `models/sub/deep.h5` (inside
`save_path`, one directory deeper) is not a candidate, while
`models-old/w.h5` (outside `save_path`, in a sibling directory whose name
merely starts with `models`) is a candidate. -/
theorem C1_weights_glob_neither_recursive_nor_confined :
    weightsCandidates ⟨["models/sub/deep.h5", "models-old/w.h5"]⟩ "models" =
      ["models-old/w.h5"] := by decide

/-- C3 (status: confirmed).  `load_config`'s own existence check raises its
`FileNotFoundError` — an error result produced before any external call,
i.e. with an empty call trace — exactly when `save_path/inference_config.py`
does not exist; and when the file exists the check passes and `load_config`
proceeds to import the file (`exec_module` is invoked on it). -/
theorem C3_load_config_existence_check (ext : ExtApi) (fs : FileSystem)
    (st : MrcnnState) (it : Interp) :
    (((load_config ext fs st it).ret = Except.error (PyErr.fileNotFoundError
        ("Expected to find configuration file at \"" ++ cfgPath st.save_path ++ "\"")) ∧
      (load_config ext fs st it).calls = []) ↔
      fs.pathExists (cfgPath st.save_path) = false) ∧
    (fs.pathExists (cfgPath st.save_path) = true →
      ExtCall.execModule (cfgPath st.save_path) ∈ (load_config ext fs st it).calls) := by
  by_cases hfp : fs.pathExists (cfgPath st.save_path) = false
  · rw [load_config_eq_missing ext fs st it hfp]
    constructor
    · exact ⟨fun _ => hfp, fun _ => ⟨rfl, rfl⟩⟩
    · intro htrue
      rw [htrue] at hfp
      exact absurd hfp (by simp)
  · have hfp2 : fs.pathExists (cfgPath st.save_path) = true := by
      cases hb : fs.pathExists (cfgPath st.save_path)
      · exact absurd hb hfp
      · rfl
    cases hE : ext.execModule (cfgPath st.save_path) with
    | error e =>
        rw [load_config_eq_execErr ext fs st it e hfp2 hE]
        refine ⟨⟨fun hcon => absurd hcon.2 (by simp), fun hcon => absurd hfp2 (by simp [hcon])⟩, fun _ => ?_⟩
        simp
    | ok u =>
        cases u
        cases hI : ext.inferenceConfigNew with
        | error e =>
            rw [load_config_eq_newErr ext fs st it e hfp2 hE hI]
            refine ⟨⟨fun hcon => absurd hcon.2 (by simp), fun hcon => absurd hfp2 (by simp [hcon])⟩, fun _ => ?_⟩
            simp
        | ok cfg =>
            rw [load_config_eq_ok ext fs st it cfg hfp2 hE hI]
            refine ⟨⟨fun hcon => absurd hcon.2 (by simp), fun hcon => absurd hfp2 (by simp [hcon])⟩, fun _ => ?_⟩
            simp

/-- C3 witness: on a concrete directory with the configuration file present,
`load_config` proceeds to import it; on one without it, it raises the
file-not-found error having made no external call. -/
theorem C3_load_config_existence_check_witness :
    ExtCall.execModule "models/inference_config.py" ∈
      (load_config extOk fsOk stNoConfig itEmpty).calls ∧
    ((load_config extOk ⟨["models/w.h5"]⟩ stNoConfig itEmpty).ret =
        Except.error (PyErr.fileNotFoundError
          "Expected to find configuration file at \"models/inference_config.py\"") ∧
      (load_config extOk ⟨["models/w.h5"]⟩ stNoConfig itEmpty).calls = []) := by
  constructor
  · exact (C3_load_config_existence_check extOk fsOk stNoConfig itEmpty).2 (by decide)
  · exact ((C3_load_config_existence_check extOk ⟨["models/w.h5"]⟩ stNoConfig
      itEmpty).1).mpr (by decide)

/-- C4 (status: confirmed).  `load_model`'s weights check raises its
`FileNotFoundError` — an error result produced before any external call,
i.e. with an empty call trace — exactly when the glob search yields zero
candidates; when at least one candidate exists, `load_model` proceeds past
the check (its call trace is nonempty) and the selected weight file is one
of the candidates. -/
theorem C4_load_model_weights_check (ext : ExtApi) (fs : FileSystem)
    (st : MrcnnState) (it : Interp) :
    (((load_model ext fs st it).ret = Except.error (PyErr.fileNotFoundError
        ("No weights files found in \"" ++ st.save_path ++ "\"")) ∧
      (load_model ext fs st it).calls = []) ↔
      weightsCandidates fs st.save_path = []) ∧
    (weightsCandidates fs st.save_path ≠ [] →
      (load_model ext fs st it).calls ≠ [] ∧
      selectWeights (weightsCandidates fs st.save_path) ∈
        weightsCandidates fs st.save_path) := by
  by_cases hnil : weightsCandidates fs st.save_path = []
  · rw [load_model_eq_nil ext fs st it hnil]
    exact ⟨⟨fun _ => hnil, fun _ => ⟨rfl, rfl⟩⟩, fun hcon => absurd hnil hcon⟩
  · have hmem := selectWeights_mem (weightsCandidates fs st.save_path) hnil
    cases hM : ext.maskRCNN "inference" st.config "." with
    | error e =>
        rw [load_model_eq_mrcnnErr ext fs st it e hnil hM]
        exact ⟨⟨fun hcon => absurd hcon.2 (by simp), fun hcon => absurd hnil (by simp [hcon])⟩,
          fun _ => ⟨by simp, hmem⟩⟩
    | ok m =>
        cases hW : ext.loadWeights m
            (selectWeights (weightsCandidates fs st.save_path)) true
            (exclusionOf st.kwargs) with
        | error e =>
            rw [load_model_eq_weightsErr ext fs st it m e hnil hM hW]
            exact ⟨⟨fun hcon => absurd hcon.2 (by simp), fun hcon => absurd hnil (by simp [hcon])⟩,
              fun _ => ⟨by simp, hmem⟩⟩
        | ok u =>
            cases u
            cases hc : st.config with
            | none =>
                rw [load_model_eq_noneCfg ext fs st it m hnil hc
                  (by rw [hc] at hM; rw [hc]; exact hM) hW]
                exact ⟨⟨fun hcon => absurd hcon.2 (by simp), fun hcon => absurd hnil (by simp [hcon])⟩,
                  fun _ => ⟨by simp, hmem⟩⟩
            | some cfg =>
                cases hC : ext.compile m cfg.LEARNING_RATE cfg.LEARNING_MOMENTUM with
                | error e =>
                    rw [load_model_eq_compileErr ext fs st it m cfg e hnil hc
                      (by rw [hc] at hM; rw [hc]; exact hM) hW hC]
                    exact ⟨⟨fun hcon => absurd hcon.2 (by simp), fun hcon => absurd hnil (by simp [hcon])⟩,
                      fun _ => ⟨by simp, hmem⟩⟩
                | ok w =>
                    cases w
                    rw [load_model_eq_ok ext fs st it m cfg hnil hc
                      (by rw [hc] at hM; rw [hc]; exact hM) hW hC]
                    exact ⟨⟨fun hcon => absurd hcon.1 (by simp), fun hcon => absurd hnil (by simp [hcon])⟩,
                      fun _ => ⟨by simp, hmem⟩⟩

/-- C5 counterexample: `glob`'s result order is the directory enumeration
order, which need not be sorted.  With the weight files enumerated as
`["m/b.h5", "m/a.h5"]` under `save_path = "m"`, both are candidates in that
order, and `load_model` hands `m/a.h5` — the last element of the glob
result — to `load_weights`, although `m/a.h5` is lexicographically strictly
below the other candidate `m/b.h5`: the selected file is not the
lexicographically last candidate. -/
theorem C5_counterexample_unsorted_enumeration :
    weightsCandidates ⟨["m/b.h5", "m/a.h5"]⟩ "m" = ["m/b.h5", "m/a.h5"] ∧
    ExtCall.loadWeights "m/a.h5" true [] ∈
      (load_model extOk ⟨["m/b.h5", "m/a.h5"]⟩
        ⟨"m", noKwargs, some ⟨3, 9⟩, Option.none⟩ itEmpty).calls ∧
    strLexLt "m/a.h5" "m/b.h5" = true := by
  refine ⟨by decide, by decide, by decide⟩

/-- C5 (status: corrected, amended claim).  Whenever the weights search
yields at least one candidate, `load_model` selects the LAST ELEMENT of the
glob result as the weights file (with exactly one candidate, that
candidate); every `load_weights` call it makes receives exactly that file.
(The original claim's "lexicographically last" does not hold: the glob
result keeps the file-system enumeration order, which need not be sorted —
see the counterexample.) -/
theorem C5_amended_select_last_glob_element (ext : ExtApi) (fs : FileSystem)
    (st : MrcnnState) (it : Interp) :
    (∀ p b ex, ExtCall.loadWeights p b ex ∈ (load_model ext fs st it).calls →
      p = selectWeights (weightsCandidates fs st.save_path)) ∧
    (weightsCandidates fs st.save_path ≠ [] →
      selectWeights (weightsCandidates fs st.save_path) =
        (weightsCandidates fs st.save_path).getLastD "") ∧
    (∀ w : String, weightsCandidates fs st.save_path = [w] →
      selectWeights (weightsCandidates fs st.save_path) = w) := by
  refine ⟨?_, ?_, ?_⟩
  · intro p b ex hmem
    rcases load_model_shape ext fs st it with ⟨_, _, _, _, hcalls, _, _⟩
    rcases hcalls _ hmem with h | h | ⟨cfg, _, h⟩
    · cases h
    · cases h
      rfl
    · cases h
  · intro h
    exact selectWeights_eq_getLastD _ h
  · intro w hw
    rw [hw]
    simp [selectWeights]

/-- C5 amended-claim witness: on a concrete directory whose enumeration
lists two weight files, the file handed to `load_weights` is the last glob
element, and the selection equals the last element of the candidate list. -/
theorem C5_amended_select_last_glob_element_witness :
    "m/a.h5" = selectWeights (weightsCandidates ⟨["m/b.h5", "m/a.h5"]⟩ "m") ∧
    selectWeights (weightsCandidates ⟨["m/b.h5", "m/a.h5"]⟩ "m") =
      (weightsCandidates ⟨["m/b.h5", "m/a.h5"]⟩ "m").getLastD "" := by
  constructor
  · exact (C5_amended_select_last_glob_element extOk ⟨["m/b.h5", "m/a.h5"]⟩
      ⟨"m", noKwargs, some ⟨3, 9⟩, Option.none⟩ itEmpty).1
      "m/a.h5" true [] (by decide)
  · exact (C5_amended_select_last_glob_element extOk ⟨["m/b.h5", "m/a.h5"]⟩
      ⟨"m", noKwargs, some ⟨3, 9⟩, Option.none⟩ itEmpty).2.1 (by decide)

/-- C2 counterexample: a run in which every external operation succeeds.
`load_config` completes and returns `None` (first conjunct; the instance it
runs on inside `__init__` is exactly `stNoConfig`, second conjunct), yet
`__init__` does not complete: `load_model` raises an `AttributeError` when
it reads `LEARNING_RATE` off the `None` configuration, so — contrary to the
claim — `load_model` does not return `None` and the final assignment
`self.model = self.load_model()` is never executed. -/
theorem C2_counterexample_init_never_sets_model :
    (load_config extOk fsOk stNoConfig itEmpty).ret = Except.ok Option.none ∧
    TrainedModel_init fsOk "models" noKwargs = Except.ok stNoConfig ∧
    (mrcnnInit extOk fsOk "models" noKwargs itEmpty).ret =
      Except.error (PyErr.attributeError
        "NoneType object has no attribute LEARNING_RATE") := by
  refine ⟨by decide, rfl, by decide⟩

/-- C2 (status: corrected, amended claim).  Whenever `load_config`
completes it returns `None`, so `self.config = self.load_config()` in
`__init__` overwrites the just-loaded configuration with `None`; every
`MaskRCNN` construction made under `__init__` therefore receives `None` as
its configuration.  But — contrary to the original claim's ending —
`load_model` cannot then complete: reading `LEARNING_RATE` off the `None`
configuration raises an `AttributeError` (when no external call raised
earlier), so `__init__` never completes and the final assignment
`self.model = self.load_model()` never executes; the `model` attribute is
`None` at whatever point `__init__` raises. -/
theorem C2_amended_init_clobbers_config (ext : ExtApi) (fs : FileSystem)
    (sp : String) (kw : String → Option PyVal) (it : Interp) :
    (∀ st v, (load_config ext fs st it).ret = Except.ok v → v = Option.none) ∧
    (∀ m c d, ExtCall.maskRCNN m c d ∈ (mrcnnInit ext fs sp kw it).calls →
      c = Option.none) ∧
    (mrcnnInit ext fs sp kw it).ret ≠ Except.ok () ∧
    (mrcnnInit ext fs sp kw it).st.model = Option.none := by
  refine ⟨?_, ?_⟩
  · intro st v h
    obtain ⟨_, _, _, _, _, hok, _, _⟩ := load_config_shape ext fs st it
    exact hok v h
  cases hTI : TrainedModel_init fs sp kw with
  | error e =>
      rw [mrcnnInit_eq_superErr ext fs sp kw it e hTI]
      refine ⟨?_, ?_, rfl⟩
      · intro m c d hmem
        simp at hmem
      · simp
  | ok st0 =>
      have hst0 := TrainedModel_init_ok fs sp kw st0 hTI
      obtain ⟨_, _, _, hCmodel, hCcalls, hCok, _, _⟩ := load_config_shape ext fs st0 it
      cases hr1 : (load_config ext fs st0 it).ret with
      | error e =>
          rw [mrcnnInit_eq_cfgErr ext fs sp kw it st0 e hTI hr1]
          refine ⟨?_, ?_, ?_⟩
          · intro m c d hmem
            rcases hCcalls _ hmem with h | h <;> cases h
          · simp
          · rw [hCmodel, hst0]
      | ok v =>
          have hv := hCok v hr1
          subst hv
          obtain ⟨_, _, _, _, hMcalls, hMok, hMerr⟩ := load_model_shape ext fs
            { (load_config ext fs st0 it).st with config := Option.none }
            (load_config ext fs st0 it).it
          cases hr2 : (load_model ext fs
              { (load_config ext fs st0 it).st with config := Option.none }
              (load_config ext fs st0 it).it).ret with
          | error e =>
              rw [mrcnnInit_eq_modelErr ext fs sp kw it st0 Option.none e hTI hr1 hr2]
              refine ⟨?_, ?_, ?_⟩
              · intro m c d hmem
                rcases List.mem_append.mp hmem with hL | hR
                · rcases hCcalls _ hL with h | h <;> cases h
                · rcases hMcalls _ hR with h | h | ⟨cfg, hcfg, h⟩
                  · cases h
                    rfl
                  · cases h
                  · exact absurd hcfg (by simp)
              · simp
              · rw [hMerr e hr2]
                show (load_config ext fs st0 it).st.model = Option.none
                rw [hCmodel, hst0]
          | ok v2 =>
              obtain ⟨hv2, cfg, m, hcfg, hstOk, hcallsOk⟩ := hMok v2 hr2
              exact absurd hcfg (by simp)

/-- C2 amended-claim witness: a concrete all-external-calls-succeed run in
which `__init__` does not complete and the `model` attribute stays `None`. -/
theorem C2_amended_init_clobbers_config_witness :
    (mrcnnInit extOk fsOk "models" noKwargs itEmpty).ret ≠ Except.ok () ∧
    (mrcnnInit extOk fsOk "models" noKwargs itEmpty).st.model = Option.none :=
  ⟨(C2_amended_init_clobbers_config extOk fsOk "models" noKwargs itEmpty).2.2.1,
   (C2_amended_init_clobbers_config extOk fsOk "models" noKwargs itEmpty).2.2.2⟩

/-- C4 witness: on a concrete directory with one weight file, the check
passes (nonempty call trace, candidate selected); with no weight file, the
`FileNotFoundError` is raised with no external call made. -/
theorem C4_load_model_weights_check_witness :
    ((load_model extOk ⟨["models/inference_config.py"]⟩ stWithConfig itEmpty).ret =
        Except.error (PyErr.fileNotFoundError "No weights files found in \"models\"") ∧
      (load_model extOk ⟨["models/inference_config.py"]⟩ stWithConfig itEmpty).calls = []) ∧
    ((load_model extOk fsOk stWithConfig itEmpty).calls ≠ [] ∧
      selectWeights (weightsCandidates fsOk "models") ∈ weightsCandidates fsOk "models") := by
  constructor
  · exact ((C4_load_model_weights_check extOk ⟨["models/inference_config.py"]⟩
      stWithConfig itEmpty).1).mpr (by decide)
  · exact (C4_load_model_weights_check extOk fsOk stWithConfig itEmpty).2 (by decide)

/-- Oracles on which `exec_module` raises an (opaque) external exception
and everything else succeeds. -/
def extBoom : ExtApi where
  execModule := fun _ => Except.error (PyErr.libError 13)
  inferenceConfigNew := Except.ok { LEARNING_RATE := 3, LEARNING_MOMENTUM := 9 }
  maskRCNN := fun _ _ _ => Except.ok 7
  loadWeights := fun _ _ _ _ => Except.ok ()
  compile := fun _ _ _ => Except.ok ()

/-- Keyword arguments carrying a truthy `use_mrcnn_exclusion`. -/
def kwExcl : String → Option PyVal := fun k =>
  if k = "use_mrcnn_exclusion" then some (PyVal.bool true) else Option.none

/-- An instance created with `use_mrcnn_exclusion=True`, holding a config. -/
def stKwExcl : MrcnnState :=
  { save_path := "models", kwargs := kwExcl,
    config := some { LEARNING_RATE := 3, LEARNING_MOMENTUM := 9 },
    model := Option.none }

/-- C6 (status: confirmed).  On every successful run of `load_model` the
external call trace is exactly three model-library calls, in order:
`MaskRCNN('inference', self.config, '.')`, then `model.load_weights` on the
selected weights file, then `model.compile` with the configuration's
learning rate and momentum — each invoked exactly once. -/
theorem C6_success_means_exactly_three_calls (ext : ExtApi) (fs : FileSystem)
    (st : MrcnnState) (it : Interp) (v : Option ModelH)
    (h : (load_model ext fs st it).ret = Except.ok v) :
    ∃ cfg, st.config = some cfg ∧
      (load_model ext fs st it).calls =
        [ExtCall.maskRCNN "inference" st.config ".",
         ExtCall.loadWeights (selectWeights (weightsCandidates fs st.save_path))
           true (exclusionOf st.kwargs),
         ExtCall.compile cfg.LEARNING_RATE cfg.LEARNING_MOMENTUM] := by
  obtain ⟨_, _, _, _, _, hok, _⟩ := load_model_shape ext fs st it
  obtain ⟨_, cfg, m, hcfg, _, hcalls⟩ := hok v h
  exact ⟨cfg, hcfg, hcalls⟩

/-- C6 witness: the three-call trace of a concrete successful run. -/
theorem C6_success_means_exactly_three_calls_witness :
    ∃ cfg, stWithConfig.config = some cfg ∧
      (load_model extOk fsOk stWithConfig itEmpty).calls =
        [ExtCall.maskRCNN "inference" stWithConfig.config ".",
         ExtCall.loadWeights
           (selectWeights (weightsCandidates fsOk stWithConfig.save_path))
           true (exclusionOf stWithConfig.kwargs),
         ExtCall.compile cfg.LEARNING_RATE cfg.LEARNING_MOMENTUM] :=
  C6_success_means_exactly_three_calls extOk fsOk stWithConfig itEmpty
    Option.none (by decide)

/-- C10 (status: confirmed).  On every successful run of `load_model` a
weights-loading call is made, and every `load_weights` call in the trace has
`by_name=True` and the exclusion list that is the five fixed layer names
exactly when the stored keyword argument `use_mrcnn_exclusion` is truthy
(via `self.kwargs.get('use_mrcnn_exclusion', False)`), and the empty list
otherwise. -/
theorem C10_exclusion_list_iff_kwarg_truthy (ext : ExtApi) (fs : FileSystem)
    (st : MrcnnState) (it : Interp) (v : Option ModelH)
    (h : (load_model ext fs st it).ret = Except.ok v) :
    (∃ wfp, ExtCall.loadWeights wfp true (exclusionOf st.kwargs) ∈
      (load_model ext fs st it).calls) ∧
    (∀ p b ex, ExtCall.loadWeights p b ex ∈ (load_model ext fs st it).calls →
      b = true ∧
      ex = (if truthy ((st.kwargs "use_mrcnn_exclusion").getD (PyVal.bool false))
        then ["mrcnn_class_logits", "mrcnn_bbox_fc", "mrcnn_bbox",
              "mrcnn_mask", "rpn_model"]
        else [])) := by
  obtain ⟨_, _, _, _, hcalls, hok, _⟩ := load_model_shape ext fs st it
  obtain ⟨_, cfg, m, hcfg, _, hlist⟩ := hok v h
  constructor
  · refine ⟨selectWeights (weightsCandidates fs st.save_path), ?_⟩
    rw [hlist]
    simp
  · intro p b ex hmem
    rcases hcalls _ hmem with hcon | hcon | ⟨cfg2, _, hcon⟩
    · cases hcon
    · cases hcon
      exact ⟨rfl, rfl⟩
    · cases hcon

/-- C10 witness: concrete successful runs with and without the keyword
argument; the exclusion list is the five fixed names exactly in the former
case. -/
theorem C10_exclusion_list_iff_kwarg_truthy_witness :
    (∃ wfp, ExtCall.loadWeights wfp true (exclusionOf stWithConfig.kwargs) ∈
      (load_model extOk fsOk stWithConfig itEmpty).calls) ∧
    (∃ wfp, ExtCall.loadWeights wfp true (exclusionOf stKwExcl.kwargs) ∈
      (load_model extOk fsOk stKwExcl itEmpty).calls) ∧
    exclusionOf stWithConfig.kwargs = [] ∧
    exclusionOf stKwExcl.kwargs =
      ["mrcnn_class_logits", "mrcnn_bbox_fc", "mrcnn_bbox",
       "mrcnn_mask", "rpn_model"] :=
  ⟨(C10_exclusion_list_iff_kwarg_truthy extOk fsOk stWithConfig itEmpty
      Option.none (by decide)).1,
   (C10_exclusion_list_iff_kwarg_truthy extOk fsOk stKwExcl itEmpty
      Option.none (by decide)).1,
   by decide, by decide⟩

/-- C7 (status: confirmed).  Exceptions raised by any of the external
operations — executing the configuration module, instantiating the
configuration class, constructing the model, loading weights, compiling —
propagate unchanged out of `load_config` / `load_model`, and errors of
either loading call propagate unchanged out of `__init__`: there is no
handler anywhere on the path. -/
theorem C7_external_exceptions_propagate (ext : ExtApi) (fs : FileSystem)
    (st : MrcnnState) (it : Interp) (e : PyErr) :
    (fs.pathExists (cfgPath st.save_path) = true →
      ext.execModule (cfgPath st.save_path) = Except.error e →
      (load_config ext fs st it).ret = Except.error e) ∧
    (fs.pathExists (cfgPath st.save_path) = true →
      ext.execModule (cfgPath st.save_path) = Except.ok () →
      ext.inferenceConfigNew = Except.error e →
      (load_config ext fs st it).ret = Except.error e) ∧
    (weightsCandidates fs st.save_path ≠ [] →
      ext.maskRCNN "inference" st.config "." = Except.error e →
      (load_model ext fs st it).ret = Except.error e) ∧
    (∀ m, weightsCandidates fs st.save_path ≠ [] →
      ext.maskRCNN "inference" st.config "." = Except.ok m →
      ext.loadWeights m (selectWeights (weightsCandidates fs st.save_path))
        true (exclusionOf st.kwargs) = Except.error e →
      (load_model ext fs st it).ret = Except.error e) ∧
    (∀ m cfg, weightsCandidates fs st.save_path ≠ [] → st.config = some cfg →
      ext.maskRCNN "inference" st.config "." = Except.ok m →
      ext.loadWeights m (selectWeights (weightsCandidates fs st.save_path))
        true (exclusionOf st.kwargs) = Except.ok () →
      ext.compile m cfg.LEARNING_RATE cfg.LEARNING_MOMENTUM = Except.error e →
      (load_model ext fs st it).ret = Except.error e) ∧
    (∀ sp kw st0, TrainedModel_init fs sp kw = Except.ok st0 →
      (load_config ext fs st0 it).ret = Except.error e →
      (mrcnnInit ext fs sp kw it).ret = Except.error e) ∧
    (∀ sp kw st0 v, TrainedModel_init fs sp kw = Except.ok st0 →
      (load_config ext fs st0 it).ret = Except.ok v →
      (load_model ext fs { (load_config ext fs st0 it).st with config := v }
        (load_config ext fs st0 it).it).ret = Except.error e →
      (mrcnnInit ext fs sp kw it).ret = Except.error e) := by
  refine ⟨?_, ?_, ?_, ?_, ?_, ?_, ?_⟩
  · intro hfp hE
    rw [load_config_eq_execErr ext fs st it e hfp hE]
  · intro hfp hE hI
    rw [load_config_eq_newErr ext fs st it e hfp hE hI]
  · intro hne hM
    rw [load_model_eq_mrcnnErr ext fs st it e hne hM]
  · intro m hne hM hW
    rw [load_model_eq_weightsErr ext fs st it m e hne hM hW]
  · intro m cfg hne hc hM hW hC
    rw [load_model_eq_compileErr ext fs st it m cfg e hne hc hM hW hC]
  · intro sp kw st0 h0 h1
    rw [mrcnnInit_eq_cfgErr ext fs sp kw it st0 e h0 h1]
  · intro sp kw st0 v h0 h1 h2
    rw [mrcnnInit_eq_modelErr ext fs sp kw it st0 v e h0 h1 h2]

/-- C7 witness: a concrete external exception (`exec_module` raising an
opaque library error) reaches the caller of `__init__` unchanged. -/
theorem C7_external_exceptions_propagate_witness :
    (load_config extBoom fsOk stNoConfig itEmpty).ret =
      Except.error (PyErr.libError 13) ∧
    (mrcnnInit extBoom fsOk "models" noKwargs itEmpty).ret =
      Except.error (PyErr.libError 13) := by
  constructor
  · exact (C7_external_exceptions_propagate extBoom fsOk stNoConfig itEmpty
      (PyErr.libError 13)).1 (by decide) (by decide)
  · exact (C7_external_exceptions_propagate extBoom fsOk stNoConfig itEmpty
      (PyErr.libError 13)).2.2.2.2.2.1 "models" noKwargs stNoConfig rfl
      ((C7_external_exceptions_propagate extBoom fsOk stNoConfig itEmpty
        (PyErr.libError 13)).1 (by decide) (by decide))

/-- C8 (status: confirmed).  Every module import `load_config` performs is
of exactly `save_path/inference_config.py` (it performs one when that file
exists), every class instantiation it performs is of the class named
`InferenceConfig` with no constructor arguments, and a completed
`load_config` performed exactly one import and one instantiation. -/
theorem C8_imports_one_file_instantiates_one_class (ext : ExtApi)
    (fs : FileSystem) (st : MrcnnState) (it : Interp) :
    (∀ p, ExtCall.execModule p ∈ (load_config ext fs st it).calls →
      p = cfgPath st.save_path) ∧
    (∀ cls args, ExtCall.instantiate cls args ∈ (load_config ext fs st it).calls →
      cls = "InferenceConfig" ∧ args = []) ∧
    (fs.pathExists (cfgPath st.save_path) = true →
      ExtCall.execModule (cfgPath st.save_path) ∈ (load_config ext fs st it).calls) ∧
    (∀ v, (load_config ext fs st it).ret = Except.ok v →
      (load_config ext fs st it).calls =
        [ExtCall.execModule (cfgPath st.save_path),
         ExtCall.instantiate "InferenceConfig" []]) := by
  obtain ⟨_, _, _, _, hcalls, _, hokfull, _⟩ := load_config_shape ext fs st it
  refine ⟨?_, ?_, ?_, ?_⟩
  · intro p hmem
    rcases hcalls _ hmem with h | h
    · cases h
      rfl
    · cases h
  · intro cls args hmem
    rcases hcalls _ hmem with h | h
    · cases h
    · cases h
      exact ⟨rfl, rfl⟩
  · intro hfp
    cases hE : ext.execModule (cfgPath st.save_path) with
    | error e =>
        rw [load_config_eq_execErr ext fs st it e hfp hE]
        simp
    | ok u =>
        cases u
        cases hI : ext.inferenceConfigNew with
        | error e =>
            rw [load_config_eq_newErr ext fs st it e hfp hE hI]
            simp
        | ok cfg =>
            rw [load_config_eq_ok ext fs st it cfg hfp hE hI]
            simp
  · intro v hv
    obtain ⟨cfg, _, _, hlist⟩ := hokfull v hv
    exact hlist

/-- C8 witness: the concrete successful run imports the configuration file
and instantiates `InferenceConfig()` — nothing else. -/
theorem C8_imports_one_file_instantiates_one_class_witness :
    (load_config extOk fsOk stNoConfig itEmpty).calls =
      [ExtCall.execModule (cfgPath stNoConfig.save_path),
       ExtCall.instantiate "InferenceConfig" []] :=
  (C8_imports_one_file_instantiates_one_class extOk fsOk stNoConfig
    itEmpty).2.2.2 Option.none (by decide)

/-- C9 counterexample: after a successful `load_config` call that started
from an empty `sys.modules`, the interpreter-global `sys.modules` holds an
`inference_config` entry and the instance's `config` attribute holds the
instantiated configuration; after a successful `load_model`, the instance's
`model` attribute holds the model handle.  This state persists past the
loading call's return, contradicting the claim that nothing outlives it. -/
theorem C9_counterexample_state_survives_loading :
    (load_config extOk fsOk stNoConfig itEmpty).ret = Except.ok Option.none ∧
    (load_config extOk fsOk stNoConfig itEmpty).it.sysModules =
      [("inference_config", "models/inference_config.py")] ∧
    (load_config extOk fsOk stNoConfig itEmpty).st.config =
      some { LEARNING_RATE := 3, LEARNING_MOMENTUM := 9 } ∧
    (load_model extOk fsOk stWithConfig itEmpty).st.model = some 7 := by
  refine ⟨by decide, by decide, by decide, by decide⟩

/-- C9 (status: corrected, amended claim).  The loading calls do leave
persistent state behind: `load_config` registers the imported module under
the interpreter-global `sys.modules` key `inference_config` and, on
success, stores the instantiated configuration in the instance's `config`
attribute; a successful `load_model` stores the constructed model handle in
the instance's `model` attribute.  Nothing else persists: `load_config`
touches no other `sys.modules` entry and no other attribute
(`save_path`, `kwargs`, `model` are unchanged), and `load_model` leaves the
interpreter state and the `save_path`, `kwargs` and `config` attributes
unchanged. -/
theorem C9_amended_exact_persistent_state (ext : ExtApi) (fs : FileSystem)
    (st : MrcnnState) (it : Interp) :
    ((load_config ext fs st it).it = it ∨
      (load_config ext fs st it).it =
        ⟨setModule it.sysModules "inference_config" (cfgPath st.save_path)⟩) ∧
    (load_config ext fs st it).st.save_path = st.save_path ∧
    (load_config ext fs st it).st.kwargs = st.kwargs ∧
    (load_config ext fs st it).st.model = st.model ∧
    (∀ v, (load_config ext fs st it).ret = Except.ok v →
      ∃ cfg, (load_config ext fs st it).st = { st with config := some cfg }) ∧
    (load_model ext fs st it).it = it ∧
    (load_model ext fs st it).st.save_path = st.save_path ∧
    (load_model ext fs st it).st.kwargs = st.kwargs ∧
    (load_model ext fs st it).st.config = st.config ∧
    (∀ v, (load_model ext fs st it).ret = Except.ok v →
      ∃ m, (load_model ext fs st it).st = { st with model := some m }) := by
  obtain ⟨hCit, hCsp, hCkw, hCmodel, _, _, hCok, _⟩ := load_config_shape ext fs st it
  obtain ⟨hMit, hMsp, hMkw, hMcfg, _, hMok, _⟩ := load_model_shape ext fs st it
  refine ⟨hCit, hCsp, hCkw, hCmodel, ?_, hMit, hMsp, hMkw, hMcfg, ?_⟩
  · intro v hv
    obtain ⟨cfg, _, hstate, _⟩ := hCok v hv
    exact ⟨cfg, hstate⟩
  · intro v hv
    obtain ⟨_, cfg, m, _, hstate, _⟩ := hMok v hv
    exact ⟨m, hstate⟩

/-- C9 amended-claim witness: the exact persistent state of the concrete
successful runs. -/
theorem C9_amended_exact_persistent_state_witness :
    (∃ cfg, (load_config extOk fsOk stNoConfig itEmpty).st =
      { stNoConfig with config := some cfg }) ∧
    (∃ m, (load_model extOk fsOk stWithConfig itEmpty).st =
      { stWithConfig with model := some m }) :=
  ⟨(C9_amended_exact_persistent_state extOk fsOk stNoConfig itEmpty).2.2.2.2.1
      Option.none (by decide),
   (C9_amended_exact_persistent_state extOk fsOk stWithConfig itEmpty).2.2.2.2.2.2.2.2.2
      Option.none (by decide)⟩

end MrcnnModel
